import Mathlib

/-!
Shallow embedding of the LovChat streaming session controller
(`labs_app/frontend/src/store/provider.tsx`): the Redux store reducers, the
`onmessage` / `onopen` / `onerror` callbacks of the `fetchEventSource` call,
the `abortRequest` thunk and the history manager, together with a model of
the JavaScript values produced by `JSON.parse` as used by the decoder.
-/

namespace LovChat

/-! ### JavaScript string helpers -/

/-- Characters stripped by JavaScript `String.prototype.trim` (the ones that
can occur in this protocol: space, tab, newlines, vertical tab, form feed). -/
def jsWsChar (c : Char) : Bool :=
  c = ' ' || c = '\t' || c = '\n' || c = '\r' || c = '\x0b' || c = '\x0c'

def trimLeftChars (cs : List Char) : List Char :=
  cs.dropWhile jsWsChar

def trimChars (cs : List Char) : List Char :=
  ((cs.dropWhile jsWsChar).reverse.dropWhile jsWsChar).reverse

/-- Model of JavaScript `value.trim()`. -/
def jsTrim (s : String) : String :=
  String.mk (trimChars s.data)

/-- ASCII lower-casing of one character, as `String.prototype.toLowerCase`
acts on the upper-case tags of the legacy bracket convention. -/
def asciiLower (c : Char) : Char :=
  if 'A' ≤ c ∧ c ≤ 'Z' then Char.ofNat (c.toNat + 32) else c

def lowerStr (s : String) : String :=
  String.mk (s.data.map asciiLower)

/-- Model of the case-insensitive (accent-sensitive) equality implemented by
`entry.localeCompare(normalized, undefined, \x7b sensitivity: 'accent' \x7d) === 0`
in `buildHistoryList`. -/
def localeEq (a b : String) : Bool :=
  lowerStr a == lowerStr b

/-! ### JavaScript values (results of `JSON.parse`) -/

/-- The JavaScript values the decoder can hold: either the raw event string or
a value produced by `JSON.parse`.  Numbers keep their source lexeme (no claim
inspects numeric values). -/
inductive JValue where
  | null : JValue
  | bool : Bool → JValue
  | num : String → JValue
  | str : String → JValue
  | arr : List JValue → JValue
  | obj : List (String × JValue) → JValue

/-- `true` when the numeric lexeme denotes zero: every digit of the mantissa
(the part before any exponent) is `0`. -/
def numLexZero (lex : String) : Bool :=
  let mantissa := lex.data.takeWhile (fun c => c ≠ 'e' ∧ c ≠ 'E')
  mantissa.all (fun c => ¬ ('1' ≤ c ∧ c ≤ '9'))

/-- JavaScript truthiness of a decoded value. -/
def jtruthy : JValue → Bool
  | .null => false
  | .bool b => b
  | .num lex => ¬ numLexZero lex
  | .str s => s ≠ ""
  | .arr _ => true
  | .obj _ => true

/-- JavaScript `===` between two freshly decoded values: value equality on
primitives; objects and arrays coming from separate `JSON.parse` calls are
distinct references, hence never `===`. -/
def jsEq : JValue → JValue → Bool
  | .null, .null => true
  | .bool a, .bool b => a == b
  | .num a, .num b => a == b
  | .str a, .str b => a == b
  | _, _ => false

/-- Property access `v?.key`: defined only on objects; JavaScript keeps the
last of duplicate keys from `JSON.parse`. -/
def jget : JValue → String → Option JValue
  | .obj fields, key => (fields.reverse.find? (fun f => f.1 == key)).map (·.2)
  | _, _ => none

def jtruthyOpt : Option JValue → Bool
  | some v => jtruthy v
  | none => false

mutual

/-- JavaScript `String(value)` for the values reachable in the fallback
status branch. -/
def jsToString : JValue → String
  | .null => "null"
  | .bool true => "true"
  | .bool false => "false"
  | .num lex => lex
  | .str s => s
  | .arr xs => jsJoinComma xs
  | .obj _ => "[object Object]"

/-- JavaScript `Array.prototype.toString` (join with `,`; `null` elements
render as the empty string). -/
def jsJoinComma : List JValue → String
  | [] => ""
  | [JValue.null] => ""
  | [x] => jsToString x
  | JValue.null :: rest => "," ++ jsJoinComma rest
  | x :: rest => jsToString x ++ "," ++ jsJoinComma rest

end

/-! ### A model of `JSON.parse` -/

def jsonWs (c : Char) : Bool :=
  c = ' ' || c = '\t' || c = '\n' || c = '\r'

def skipJsonWs (cs : List Char) : List Char :=
  cs.dropWhile jsonWs

def hexVal (c : Char) : Option Nat :=
  if '0' ≤ c ∧ c ≤ '9' then some (c.toNat - '0'.toNat)
  else if 'a' ≤ c ∧ c ≤ 'f' then some (c.toNat - 'a'.toNat + 10)
  else if 'A' ≤ c ∧ c ≤ 'F' then some (c.toNat - 'A'.toNat + 10)
  else none

def isDigit (c : Char) : Bool :=
  '0' ≤ c && c ≤ '9'

/-- Parse the body of a JSON string after the opening quote; returns the
decoded characters and the remaining input after the closing quote. -/
def parseStrBody (fuel : Nat) (cs : List Char) : Option (List Char × List Char) :=
  match fuel with
  | 0 => none
  | fuel + 1 =>
    match cs with
    | [] => none
    | '"' :: rest => some ([], rest)
    | '\\' :: esc :: rest =>
      match esc with
      | '"' => (parseStrBody fuel rest).map (fun r => ('"' :: r.1, r.2))
      | '\\' => (parseStrBody fuel rest).map (fun r => ('\\' :: r.1, r.2))
      | '/' => (parseStrBody fuel rest).map (fun r => ('/' :: r.1, r.2))
      | 'b' => (parseStrBody fuel rest).map (fun r => ('\x08' :: r.1, r.2))
      | 'f' => (parseStrBody fuel rest).map (fun r => ('\x0c' :: r.1, r.2))
      | 'n' => (parseStrBody fuel rest).map (fun r => ('\n' :: r.1, r.2))
      | 'r' => (parseStrBody fuel rest).map (fun r => ('\r' :: r.1, r.2))
      | 't' => (parseStrBody fuel rest).map (fun r => ('\t' :: r.1, r.2))
      | 'u' =>
        match rest with
        | h1 :: h2 :: h3 :: h4 :: rest2 =>
          match hexVal h1, hexVal h2, hexVal h3, hexVal h4 with
          | some a, some b, some c, some d =>
            (parseStrBody fuel rest2).map
              (fun r => (Char.ofNat (((a * 16 + b) * 16 + c) * 16 + d) :: r.1, r.2))
          | _, _, _, _ => none
        | _ => none
      | _ => none
    | c :: rest =>
      if c.toNat < 32 then none
      else (parseStrBody fuel rest).map (fun r => (c :: r.1, r.2))

/-- Parse a JSON number starting at `cs`; returns the lexeme and the rest. -/
def parseNumLex (cs : List Char) : Option (List Char × List Char) :=
  let (neg, cs1) := match cs with
    | '-' :: rest => (['-'], rest)
    | _ => ([], cs)
  match cs1 with
  | '0' :: rest =>
    some (neg ++ ['0'], rest)
  | c :: _ =>
    if isDigit c then
      let digits := cs1.takeWhile isDigit
      some (neg ++ digits, cs1.drop digits.length)
    else none
  | [] => none

def parseFracPart (cs : List Char) : Option (List Char × List Char) :=
  match cs with
  | '.' :: rest =>
    let digits := rest.takeWhile isDigit
    if digits.length = 0 then none
    else some ('.' :: digits, rest.drop digits.length)
  | _ => some ([], cs)

def parseExpPart (cs : List Char) : Option (List Char × List Char) :=
  match cs with
  | e :: rest =>
    if e = 'e' ∨ e = 'E' then
      let (sign, rest1) := match rest with
        | '+' :: r => (['+'], r)
        | '-' :: r => (['-'], r)
        | _ => ([], rest)
      let digits := rest1.takeWhile isDigit
      if digits.length = 0 then none
      else some (e :: (sign ++ digits), rest1.drop digits.length)
    else some ([], cs)
  | [] => some ([], cs)

def parseNumber (cs : List Char) : Option (List Char × List Char) :=
  match parseNumLex cs with
  | none => none
  | some (intPart, rest) =>
    match parseFracPart rest with
    | none => none
    | some (fracPart, rest2) =>
      match parseExpPart rest2 with
      | none => none
      | some (expPart, rest3) => some (intPart ++ fracPart ++ expPart, rest3)

def takeLiteral (lit : List Char) (cs : List Char) : Option (List Char) :=
  match lit, cs with
  | [], rest => some rest
  | l :: ls, c :: rest => if l = c then takeLiteral ls rest else none
  | _ :: _, [] => none

mutual

/-- Recursive-descent parser for one JSON value (leading whitespace already
skipped). -/
def parseVal (fuel : Nat) (cs : List Char) : Option (JValue × List Char) :=
  match fuel with
  | 0 => none
  | fuel + 1 =>
    match cs with
    | [] => none
    | '"' :: rest => (parseStrBody fuel rest).map (fun r => (JValue.str (String.mk r.1), r.2))
    | '\x7b' :: rest =>
      match skipJsonWs rest with
      | '\x7d' :: rest2 => some (JValue.obj [], rest2)
      | rest2 => (parseMembers fuel rest2).map (fun r => (JValue.obj r.1, r.2))
    | '[' :: rest =>
      match skipJsonWs rest with
      | ']' :: rest2 => some (JValue.arr [], rest2)
      | rest2 => (parseElems fuel rest2).map (fun r => (JValue.arr r.1, r.2))
    | 't' :: _ => (takeLiteral ['t', 'r', 'u', 'e'] cs).map (fun r => (JValue.bool true, r))
    | 'f' :: _ => (takeLiteral ['f', 'a', 'l', 's', 'e'] cs).map (fun r => (JValue.bool false, r))
    | 'n' :: _ => (takeLiteral ['n', 'u', 'l', 'l'] cs).map (fun r => (JValue.null, r))
    | _ => (parseNumber cs).map (fun r => (JValue.num (String.mk r.1), r.2))

/-- Parse the comma-separated elements of a non-empty array, up to and
including the closing bracket. -/
def parseElems (fuel : Nat) (cs : List Char) : Option (List JValue × List Char) :=
  match fuel with
  | 0 => none
  | fuel + 1 =>
    match parseVal fuel cs with
    | none => none
    | some (v, rest) =>
      match skipJsonWs rest with
      | ',' :: rest2 =>
        (parseElems fuel (skipJsonWs rest2)).map (fun r => (v :: r.1, r.2))
      | ']' :: rest2 => some ([v], rest2)
      | _ => none

/-- Parse the comma-separated members of a non-empty object, up to and
including the closing brace. -/
def parseMembers (fuel : Nat) (cs : List Char) : Option (List (String × JValue) × List Char) :=
  match fuel with
  | 0 => none
  | fuel + 1 =>
    match cs with
    | '"' :: rest =>
      match parseStrBody fuel rest with
      | none => none
      | some (key, rest1) =>
        match skipJsonWs rest1 with
        | ':' :: rest2 =>
          match parseVal fuel (skipJsonWs rest2) with
          | none => none
          | some (v, rest3) =>
            match skipJsonWs rest3 with
            | ',' :: rest4 =>
              (parseMembers fuel (skipJsonWs rest4)).map
                (fun r => ((String.mk key, v) :: r.1, r.2))
            | '\x7d' :: rest4 => some ([(String.mk key, v)], rest4)
            | _ => none
        | _ => none
    | _ => none

end

/-- Model of `JSON.parse(s)`: `none` when JavaScript would throw. -/
def parseJson (s : String) : Option JValue :=
  match parseVal (s.length + 1) (skipJsonWs s.data) with
  | some (v, rest) => if skipJsonWs rest = [] then some v else none
  | none => none

/-! ### Data model (`GlobalStateType` and friends) -/

/-- `AppStatus` from `provider.tsx`. -/
inductive AppStatus where
  | Idle
  | StreamingMessage
  | Done
  | Error
deriving DecidableEq, Repr

/-- A citation entry as pushed by the `addSource` reducer:
`\x7b ...source, summary: [source.summary], expanded: false \x7d`.  Fields keep the
JavaScript values they receive; `none` models an absent (`undefined`) field. -/
structure Source where
  name : JValue
  url : Option JValue
  source_path : Option JValue
  summary : List JValue
  icon : Option JValue
  updated_at : Option JValue
  expanded : Bool

/-- One conversation turn (`ChatMessageType`): created by `addMessage` with
`id`, `isHuman`, `content`; `contentHtml` and `sources` are attached later by
`updateMessage` / `setMessageSource`. -/
structure ChatMessage where
  id : Nat
  isHuman : Bool
  content : String
  contentHtml : Option String
  sources : Option (List Source)

/-- `GlobalStateType`: the root of the session state. -/
structure GlobalState where
  status : AppStatus
  conversation : List ChatMessage
  sources : List Source
  sessionId : Option String
  history : List String
  statusMessages : List String

def MAX_HISTORY_ENTRIES : Nat := 20

/-- The initial `GLOBAL_STATE` (with an empty loaded history). -/
def initialState : GlobalState :=
  { status := .Idle
    conversation := []
    sources := []
    sessionId := none
    history := []
    statusMessages := [] }

/-! ### Store reducers -/

/-- The incoming payload of the `addSource` reducer, as built in the `source`
branch of `onmessage`: a single snippet in `summary`. -/
structure IncomingSource where
  name : JValue
  url : Option JValue
  source_path : Option JValue
  summary : JValue
  icon : Option JValue
  updated_at : Option JValue

/-- `[...rootSource.summary, source.summary]` guarded by
`!rootSource.summary.find((summary) => summary === source.summary)`. -/
def addSnippet (snippet : JValue) (summary : List JValue) : List JValue :=
  if (summary.find? (fun s => jsEq s snippet)).isSome then summary
  else summary ++ [snippet]

/-- Apply `f` to the first source whose `name` is `===` to `nm` (the one
`state.sources.find` returns). -/
def updateFirstSource (nm : JValue) (f : Source → Source) : List Source → List Source
  | [] => []
  | s :: rest =>
    if jsEq s.name nm then f s :: rest else s :: updateFirstSource nm f rest

/-- The `addSource` reducer. -/
def addSource (inc : IncomingSource) (st : GlobalState) : GlobalState :=
  if (st.sources.find? (fun s => jsEq s.name inc.name)).isSome then
    { st with
      sources := updateFirstSource inc.name
        (fun s => { s with summary := addSnippet inc.summary s.summary }) st.sources }
  else
    { st with
      sources := st.sources ++
        [{ name := inc.name
           url := inc.url
           source_path := inc.source_path
           summary := [inc.summary]
           icon := inc.icon
           updated_at := inc.updated_at
           expanded := false }] }

def setStatus (status : AppStatus) (st : GlobalState) : GlobalState :=
  { st with status := status }

def setSessionId (sessionId : String) (st : GlobalState) : GlobalState :=
  { st with sessionId := some sessionId }

def addMessage (m : ChatMessage) (st : GlobalState) : GlobalState :=
  { st with conversation := st.conversation ++ [m] }

/-- The patch objects passed to `updateMessage` (`\x7b id, content \x7d` or
`\x7b id, contentHtml \x7d`); a present field overrides the message's field. -/
structure MessagePatch where
  content : Option String
  contentHtml : Option String

def applyPatch (p : MessagePatch) (m : ChatMessage) : ChatMessage :=
  { m with
    content := p.content.getD m.content
    contentHtml := match p.contentHtml with
      | some h => some h
      | none => m.contentHtml }

/-- Replace the first message with the given id (`findIndex` + assignment). -/
def updateFirstMsg (id : Nat) (f : ChatMessage → ChatMessage) :
    List ChatMessage → List ChatMessage
  | [] => []
  | m :: rest =>
    if m.id = id then f m :: rest else m :: updateFirstMsg id f rest

def updateMessage (id : Nat) (p : MessagePatch) (st : GlobalState) : GlobalState :=
  { st with conversation := updateFirstMsg id (applyPatch p) st.conversation }

/-- `setMessageSource`: resolve names against the citation map, dropping
names with no matching Source, and attach the result to the message. -/
def setMessageSource (id : Nat) (names : List JValue) (st : GlobalState) : GlobalState :=
  let resolved := names.filterMap
    (fun nm => st.sources.find? (fun s => jsEq s.name nm))
  { st with
    conversation := updateFirstMsg id (fun m => { m with sources := some resolved })
      st.conversation }

/-- Remove the first message with the given id (`findIndex` + `splice`). -/
def removeFirstMsg (id : Nat) : List ChatMessage → List ChatMessage
  | [] => []
  | m :: rest => if m.id = id then rest else m :: removeFirstMsg id rest

def removeMessage (id : Nat) (st : GlobalState) : GlobalState :=
  { st with conversation := removeFirstMsg id st.conversation }

def sourceToggle (nm : JValue) (explicit : Option Bool) (st : GlobalState) : GlobalState :=
  { st with
    sources := updateFirstSource nm
      (fun s => { s with expanded := explicit.getD (!s.expanded) }) st.sources }

def setHistory (history : List String) (st : GlobalState) : GlobalState :=
  { st with history := history }

def addStatusMessage (message : String) (st : GlobalState) : GlobalState :=
  { st with statusMessages := st.statusMessages ++ [message] }

def resetStatusMessages (st : GlobalState) : GlobalState :=
  { st with statusMessages := [] }

def reset (st : GlobalState) : GlobalState :=
  { st with
    status := .Idle
    sessionId := none
    conversation := []
    sources := []
    statusMessages := [] }

/-! ### History manager -/

def normaliseQuestion (value : String) : String := jsTrim value

/-- `buildHistoryList` from `provider.tsx`. -/
def buildHistoryList (history : List String) (question : String) : List String :=
  let normalized := normaliseQuestion question
  if normalized.length = 0 then history
  else
    let existing := history.filter (fun entry => ¬ localeEq entry normalized)
    (normalized :: existing).take MAX_HISTORY_ENTRIES

/-- The `recordHistory` thunk: dispatch `setHistory` only when the rebuilt
list differs from the current one (persistence is a side effect outside the
store and is not modelled). -/
def recordHistory (question : String) (st : GlobalState) : GlobalState :=
  let nextHistory := buildHistoryList st.history question
  let historyChanged :=
    nextHistory.length ≠ st.history.length ||
      (nextHistory.zip st.history).any (fun p => p.1 ≠ p.2)
  if historyChanged then setHistory nextHistory st else st

/-! ### The streaming controller: decoding one wire event -/

/-- What `fetchEventSource` hands to `onmessage`: the record's `event:` field
(`""` when absent) and the joined `data:` payload. -/
structure SseEvent where
  event : String
  data : String

/-- The generic fallback narration used when an error carries no message. -/
def FALLBACK_MESSAGE : String :=
  "Klarte ikke å hente svar fra GPTLov. Kontroller tilkoblingen og prøv igjen."

def startsWithChar (c : Char) (s : String) : Bool :=
  match s.data with
  | c0 :: _ => c0 = c
  | [] => false

def isTagChar (c : Char) : Bool :=
  ('A' ≤ c && c ≤ 'Z') || c = '_'

/-- The legacy bracket-tag regex `^\[([A-Z_]+)\]\s*([\s\S]*)$`: returns the
tag and the remainder after the maximal run of whitespace. -/
def legacyMatch (s : String) : Option (String × String) :=
  match s.data with
  | '[' :: rest =>
    let tag := rest.takeWhile isTagChar
    if tag.length = 0 then none
    else
      match rest.drop tag.length with
      | ']' :: rest2 => some (String.mk tag, String.mk (trimLeftChars rest2))
      | _ => none
  | _ => none

/-- The prefix of `onmessage` that turns the raw event into a typed payload:
`.inl msg` models `throw new FatalError(rawEventData)` on the
`payloadType === FatalError.name` check; `.inr (payloadType, payloadData)` is
the typed event handed to the dispatch branches. -/
def decodeEvent (ev : SseEvent) : Sum String (String × JValue) :=
  let rawEventData := jsTrim ev.data
  let payloadType := ev.event
  if rawEventData.length ≠ 0 ∧ payloadType = "FatalError" then
    .inl rawEventData
  else
    let payloadData : JValue :=
      if rawEventData.length ≠ 0 then
        match parseJson rawEventData with
        | some v => v
        | none => .str rawEventData
      else .str ev.data
    if payloadType ≠ "" then .inr (payloadType, payloadData)
    else
      match payloadData with
      | .str s =>
        match legacyMatch s with
        | some (tag, rest) =>
          let legacyPayload := jsTrim rest
          let pd : JValue :=
            if startsWithChar '\x7b' legacyPayload || startsWithChar '[' legacyPayload then
              match parseJson legacyPayload with
              | some v => v
              | none => .str legacyPayload
            else if legacyPayload.length ≠ 0 then .str legacyPayload
            else .null
          .inr (lowerStr tag, pd)
        | none =>
          if s.length ≠ 0 then .inr ("chunk", .str s) else .inr ("", .str s)
      | pd =>
        if rawEventData.length ≠ 0 then .inr ("chunk", .str rawEventData)
        else .inr ("", pd)

/-! ### The dispatch branches of `onmessage` -/

def handleSessionId (pd : JValue) (st : GlobalState) : GlobalState :=
  setSessionId (match pd with | .str s => jsTrim s | _ => "") st

/-- The `source` branch: guarded by the truthiness of `page_content` and
`name`; `link = source.url || source.source_path || ''` and the pushed `url`
is `link || undefined`. -/
def handleSource (pd : JValue) (st : GlobalState) : GlobalState :=
  match jget pd "page_content", jget pd "name" with
  | some pageContent, some name =>
    if jtruthy pageContent && jtruthy name then
      let url := jget pd "url"
      let sourcePath := jget pd "source_path"
      let link : Option JValue :=
        if jtruthyOpt url then url
        else if jtruthyOpt sourcePath then sourcePath
        else none
      addSource
        { name := name
          url := link
          source_path := sourcePath
          summary := pageContent
          icon := jget pd "category"
          updated_at := jget pd "updated_at" } st
    else st
  | _, _ => st

def handleStatus (pd : JValue) (st : GlobalState) : GlobalState :=
  let statusMessage :=
    match pd with
    | .str s => jsTrim s
    | .obj fields =>
      match jget (.obj fields) "message" with
      | some (.str s) => jsTrim s
      | _ => ""
    | _ => ""
  if statusMessage ≠ "" then addStatusMessage statusMessage st else st

def handleSourceList (conversationId : Nat) (pd : JValue) (st : GlobalState) : GlobalState :=
  let names : List JValue :=
    match jget pd "names" with
    | some (.arr xs) => xs
    | _ => match pd with
      | .arr xs => xs
      | _ => []
  if names.length ≠ 0 then
    addStatusMessage
      ("Fant " ++ toString names.length ++ " relevante utdrag – analyserer…")
      (setMessageSource conversationId names st)
  else st

def handleAnswerHtml (conversationId : Nat) (pd : JValue) (st : GlobalState) : GlobalState :=
  match pd with
  | .str s => updateMessage conversationId { content := none, contentHtml := some s } st
  | _ => st

/-- The `chunk` branch also threads the closure variable `message` (the text
accumulated so far). -/
def handleChunk (conversationId : Nat) (message : String) (pd : JValue)
    (st : GlobalState) : GlobalState × String :=
  match pd with
  | .str s =>
    if s ≠ "" then
      let m := message ++ s
      (updateMessage conversationId { content := some m, contentHtml := none } st, m)
    else (st, message)
  | _ => (st, message)

/-- Result of one `onmessage` call: either the updated state and accumulated
message, or a thrown `FatalError` carrying its message. -/
inductive MsgResult where
  | ok : GlobalState → String → MsgResult
  | fatal : String → MsgResult

/-- The `onmessage` callback. -/
def onmessage (conversationId : Nat) (message : String) (ev : SseEvent)
    (st : GlobalState) : MsgResult :=
  match decodeEvent ev with
  | .inl m => .fatal m
  | .inr (payloadType, pd) =>
    if payloadType = "fatalerror" then .fatal ev.data
    else if payloadType = "session_id" then .ok (handleSessionId pd st) message
    else if payloadType = "source" then .ok (handleSource pd st) message
    else if payloadType = "status" then .ok (handleStatus pd st) message
    else if payloadType = "source_list" then
      .ok (handleSourceList conversationId pd st) message
    else if payloadType = "contexts" then .ok st message
    else if payloadType = "answer_html" then
      .ok (handleAnswerHtml conversationId pd st) message
    else if payloadType = "chunk" then
      let r := handleChunk conversationId message pd st
      .ok r.1 r.2
    else if payloadType = "done" then
      .ok (setStatus .Done (addStatusMessage "Ferdig." st)) message
    else if jtruthy pd then
      .ok (addStatusMessage (jsTrim (jsToString pd)) st) message
    else .ok st message

/-- Apply a sequence of decoded events, stopping at a thrown `FatalError`. -/
def runEvents (conversationId : Nat) : List SseEvent → String → GlobalState → MsgResult
  | [], message, st => .ok st message
  | ev :: rest, message, st =>
    match onmessage conversationId message ev st with
    | .ok st' message' => runEvents conversationId rest message' st'
    | .fatal m => .fatal m

/-! ### Connection-open validation and error classification -/

inductive OpenOutcome where
  | accept
  | fatalErr
  | retriableErr
deriving DecidableEq, Repr

/-- The `onopen` callback, over the response status code (`response.ok` is
status in [200, 300)). -/
def onopen (status : Nat) : OpenOutcome :=
  if 200 ≤ status ∧ status < 300 then .accept
  else if 400 ≤ status ∧ status < 500 ∧ status ≠ 429 then .fatalErr
  else .retriableErr

/-- The error reaching `onerror`: a thrown `FatalError` with its message, or
a `RetriableError` / transport failure. -/
inductive StreamErr where
  | fatal : String → StreamErr
  | retriable : StreamErr

/-- Outcome of `onerror`: either rethrow after narrating the failure (the
attempt ends) or swallow the error and let `fetchEventSource` retry with the
incremented counter. -/
inductive ErrOutcome where
  | escalate : GlobalState → ErrOutcome
  | retry : Nat → GlobalState → ErrOutcome

/-- The narration message chosen on escalation. -/
def escalationMessage : StreamErr → String
  | .fatal m => if jsTrim m ≠ "" then jsTrim m else FALLBACK_MESSAGE
  | .retriable => FALLBACK_MESSAGE

/-- The `onerror` callback with the closure variable `countRetiresError`. -/
def onerror (countRetiresError : Nat) (err : StreamErr) (st : GlobalState) : ErrOutcome :=
  if (match err with | .fatal _ => true | .retriable => false) || decide (countRetiresError > 3) then
    .escalate (setStatus .Error (addStatusMessage (escalationMessage err) st))
  else
    .retry (countRetiresError + 1) st

/-- Run `n` consecutive failing attempts that all error the same retriable
way (e.g. the connection opens with status 503 and then closes): returns the
final retry counter, the state, and whether the error was escalated. -/
def applyFailures : Nat → Nat → GlobalState → Nat × GlobalState × Bool
  | 0, count, st => (count, st, false)
  | n + 1, count, st =>
    match onerror count .retriable st with
    | .retry count' st' => applyFailures n count' st'
    | .escalate st' => (count, st', true)

/-! ### The thunks -/

/-- The synchronous prelude of the `chat` thunk: append the empty assistant
turn, clear the narration, emit the initial narration, enter streaming. -/
def chatStart (st : GlobalState) : GlobalState :=
  setStatus .StreamingMessage
    (addStatusMessage "Starter søk i lovverket…"
      (resetStatusMessages
        (addMessage
          { id := st.conversation.length + 1
            isHuman := false
            content := ""
            contentHtml := none
            sources := none } st)))

/-- The human turn appended by `askQuestion`. -/
def appendHuman (question : String) (st : GlobalState) : GlobalState :=
  addMessage
    { id := st.conversation.length + 1
      isHuman := true
      content := question
      contentHtml := none
      sources := none } st

/-- The `abortRequest` thunk.  Note that the `messages.length` test reads the
conversation captured before the removal. -/
def abortRequest (st : GlobalState) : GlobalState :=
  let messages := st.conversation
  let st1 :=
    match messages.getLast? with
    | some lastMessage =>
      if lastMessage.content = "" then removeMessage lastMessage.id st else st
    | none => st
  resetStatusMessages
    (setStatus (if messages.length ≠ 0 then .Done else .Idle) st1)

/-- The conversation lists reachable through the controller's operations:
`askQuestion` appends a human turn with `id = conversation.length + 1`, the
`chat` thunk appends the empty assistant turn the same way, and `abortRequest`
removes the last turn (through `removeMessage` on its id) when its content is
empty. -/
inductive ConvReachable : List ChatMessage → Prop where
  | nil : ConvReachable []
  | human : ∀ (c : List ChatMessage) (q : String), ConvReachable c →
      ConvReachable (c ++ [{ id := c.length + 1, isHuman := true, content := q,
                             contentHtml := none, sources := none }])
  | assistant : ∀ (c : List ChatMessage), ConvReachable c →
      ConvReachable (c ++ [{ id := c.length + 1, isHuman := false, content := "",
                             contentHtml := none, sources := none }])
  | cancel : ∀ (c : List ChatMessage) (m : ChatMessage), ConvReachable c →
      c.getLast? = some m → m.content = "" → ConvReachable (removeFirstMsg m.id c)

/-! ## Helper lemmas -/

theorem localeEq_comm (a b : String) : localeEq a b = localeEq b a := by
  unfold localeEq
  rcases eq_or_ne (lowerStr a) (lowerStr b) with h | h
  · rw [h]
  · simp [h, Ne.symm h]

/-- Removing the last element by its id removes exactly the last element when
ids are unique. -/
theorem removeFirst_getLast (l : List ChatMessage) (m : ChatMessage)
    (hlast : l.getLast? = some m) (hnodup : (l.map (·.id)).Nodup) :
    removeFirstMsg m.id l = l.dropLast := by
  induction l with
  | nil => simp at hlast
  | cons a rest ih =>
    cases rest with
    | nil =>
      have : a = m := by simpa [List.getLast?] using hlast
      subst this
      simp [removeFirstMsg]
    | cons b rest2 =>
      rw [List.getLast?_cons_cons] at hlast
      have hmem : m ∈ b :: rest2 := by
        rw [List.getLast?_eq_some_iff] at hlast
        obtain ⟨ys, hy⟩ := hlast
        rw [hy]; simp
      rw [List.map_cons, List.nodup_cons] at hnodup
      have hne : a.id ≠ m.id := by
        intro h
        exact hnodup.1 (h ▸ List.mem_map_of_mem (·.id) hmem)
      rw [removeFirstMsg, if_neg hne, ih hlast hnodup.2]
      rfl

/-- Two lists of equal length with no differing zipped pair are equal
(the contrapositive of the `historyChanged` test). -/
theorem eq_of_unchanged (l1 l2 : List String)
    (hlen : l1.length = l2.length)
    (h : (l1.zip l2).any (fun p => decide (p.1 ≠ p.2)) = false) : l1 = l2 := by
  induction l1 generalizing l2 with
  | nil =>
    cases l2 with
    | nil => rfl
    | cons b t2 => simp at hlen
  | cons a t ih =>
    cases l2 with
    | nil => simp at hlen
    | cons b t2 =>
      simp only [List.zip_cons_cons, List.any_cons, Bool.or_eq_false_iff,
        decide_eq_false_iff_not, not_not] at h
      simp only [List.length_cons, Nat.add_right_cancel_iff] at hlen
      rw [h.1, ih t2 hlen h.2]

/-- The history update applied by `recordHistory` is `buildHistoryList`,
whether or not the change test fires. -/
theorem recordHistory_history (q : String) (st : GlobalState) :
    (recordHistory q st).history = buildHistoryList st.history q := by
  unfold recordHistory
  by_cases h : ((buildHistoryList st.history q).length ≠ st.history.length ||
      ((buildHistoryList st.history q).zip st.history).any
        (fun p => decide (p.1 ≠ p.2))) = true
  · simp only [h, if_true, setHistory]
  · simp only [h, if_false]
    simp only [Bool.or_eq_true, decide_eq_true_eq, not_or, Bool.not_eq_true] at h
    exact (eq_of_unchanged _ _ (by simpa using h.1) h.2).symm

/-- The ids of a reachable conversation are exactly `1, 2, …, length`. -/
theorem convReachable_ids (c : List ChatMessage) (h : ConvReachable c) :
    c.map (·.id) = List.range' 1 c.length := by
  induction h with
  | nil => rfl
  | human c q hc ih =>
    simp only [List.map_append, List.map_cons, List.map_nil, ih,
      List.length_append, List.length_cons, List.length_nil]
    rw [List.range'_concat]
    simp [Nat.add_comm]
  | assistant c hc ih =>
    simp only [List.map_append, List.map_cons, List.map_nil, ih,
      List.length_append, List.length_cons, List.length_nil]
    rw [List.range'_concat]
    simp [Nat.add_comm]
  | cancel c m hc hlast hcont ih =>
    have hnodup : (c.map (·.id)).Nodup := by
      rw [ih]; exact List.nodup_range' _ _
    rw [removeFirst_getLast c m hlast hnodup]
    cases c with
    | nil => simp at hlast
    | cons a rest =>
      rw [List.map_dropLast, ih]
      have hlen : (a :: rest).length = rest.length + 1 := by simp
      rw [hlen, List.range'_concat, List.dropLast_concat]
      simp

/-! ## Claim C1 -/

/-- Claim C1, counterexample: applying the decoded records `chunk "Hello"`,
`chunk " world"`, `done` to a fresh assistant turn leaves its content equal to
`"Helloworld"`, not `"Hello world"`: `onmessage` trims each record's payload
before use, so the leading space of the second chunk is lost. -/
theorem c1_counterexample :
    runEvents 1 [⟨"chunk", "Hello"⟩, ⟨"chunk", " world"⟩, ⟨"done", ""⟩] ""
        (chatStart initialState) =
      .ok { status := .Done
            conversation := [{ id := 1, isHuman := false, content := "Helloworld",
                               contentHtml := none, sources := none }]
            sources := []
            sessionId := none
            history := []
            statusMessages := ["Starter søk i lovverket…", "Ferdig."] } "Helloworld" ∧
    "Helloworld" ≠ "Hello world" :=
  ⟨rfl, by decide⟩

/-- Claim C1, amended: for the stream `chunk "Hello"`, `chunk " world"`,
`done`, the final assistant turn's content is `"Helloworld"` — chunk payloads
are trimmed of leading/trailing whitespace before being concatenated — and
the status is `Done`. -/
theorem c1_trimmed_accumulation :
    ∃ final : GlobalState,
      runEvents 1 [⟨"chunk", "Hello"⟩, ⟨"chunk", " world"⟩, ⟨"done", ""⟩] ""
          (chatStart initialState) = .ok final "Helloworld" ∧
      final.conversation.map (·.content) = ["Helloworld"] ∧
      final.status = .Done :=
  ⟨{ status := .Done
     conversation := [{ id := 1, isHuman := false, content := "Helloworld",
                        contentHtml := none, sources := none }]
     sources := []
     sessionId := none
     history := []
     statusMessages := ["Starter søk i lovverket…", "Ferdig."] },
   rfl, rfl, rfl⟩

/-! ## Claim C2 -/

/-- Claim C2, counterexample: after 3 failing retriable attempts (e.g. the
connection repeatedly opening with status 503 and closing) the error has NOT
been escalated: `onerror` has merely incremented the counter to 3, the state
is untouched and the status is still `StreamingMessage`, not `Error`. -/
theorem c2_counterexample :
    applyFailures 3 0 (chatStart initialState) = (3, chatStart initialState, false) ∧
    (chatStart initialState).status = AppStatus.StreamingMessage :=
  ⟨rfl, rfl⟩

/-- Claim C2, amended: a connection opening with status 503 is classified
retriable; the first 4 consecutive retriable failures are all retried
(`countRetiresError` ends at 4, no escalation, state untouched); the 5th
consecutive retriable failure is escalated to fatal: status becomes `Error`,
the non-empty generic fallback narration is appended, and the attempt ends
with no further retry. -/
theorem c2_retry_budget (st : GlobalState) :
    onopen 503 = .retriableErr ∧
    applyFailures 4 0 st = (4, st, false) ∧
    applyFailures 5 0 st =
      (4, setStatus .Error (addStatusMessage FALLBACK_MESSAGE st), true) ∧
    FALLBACK_MESSAGE ≠ "" :=
  ⟨rfl, rfl, rfl, by decide⟩

/-! ## Claim C7 -/

/-- Claim C7: a record with no explicit `event:` field whose payload is
`"[STATUS] hello world"` decodes through the legacy bracket-tag fallback to a
`status` event with payload `"hello world"` (tag lower-cased, remainder
trimmed); an empty remainder yields a `null` payload; a JSON-looking
remainder is parsed as JSON. -/
theorem c7_legacy_bracket_fallback :
    decodeEvent ⟨"", "[STATUS] hello world"⟩ = .inr ("status", .str "hello world") ∧
    decodeEvent ⟨"", "[NOTE]"⟩ = .inr ("note", .null) ∧
    decodeEvent ⟨"", "[CONTEXTS] [1, 2]"⟩ =
      .inr ("contexts", .arr [.num "1", .num "2"]) :=
  ⟨rfl, rfl, rfl⟩

/-! ## Claim C8 -/

/-- Claim C8: connection-open validation classifies every response status
exactly as the spec states: 2xx is accepted, a 4xx other than 429 is fatal,
and everything else (429, 5xx, and any other status) is retriable. -/
theorem c8_onopen_classification (status : Nat) :
    (onopen status = .accept ↔ 200 ≤ status ∧ status < 300) ∧
    (onopen status = .fatalErr ↔ 400 ≤ status ∧ status < 500 ∧ status ≠ 429) ∧
    (onopen status = .retriableErr ↔
      ¬(200 ≤ status ∧ status < 300) ∧
        ¬(400 ≤ status ∧ status < 500 ∧ status ≠ 429)) := by
  unfold onopen
  split_ifs with h1 h2 <;> refine ⟨?_, ?_, ?_⟩ <;> simp_all
  all_goals omega

/-! ## Claim C3 -/

/-- Claim C3, counterexample: a decoded record of type `error` (payload
`"boom"`) is NOT surfaced as a terminal failure by this controller: no branch
of `onmessage` handles `error`, so it falls into the unknown-event fallback,
the payload is appended as a status narration, streaming continues and status
stays `StreamingMessage`, never becoming `Error`. -/
theorem c3_counterexample :
    onmessage 1 "" ⟨"error", "boom"⟩ (chatStart initialState) =
      .ok (addStatusMessage "boom" (chatStart initialState)) "" ∧
    (addStatusMessage "boom" (chatStart initialState)).status =
      AppStatus.StreamingMessage :=
  ⟨rfl, rfl⟩

/-- Claim C3, amended: only records whose event type is `fatalerror` surface
a terminal failure: `onmessage` throws a `FatalError` carrying the raw
payload, and `onerror` then stops the attempt with status `Error`, appending
the server-supplied message when its trimmed form is non-empty and the
generic fallback otherwise — the appended message is never empty.  Records of
type `error` are instead handled by the unknown-event fallback as status
narration. -/
theorem c3_fatalerror_terminal (cid : Nat) (msg : String) (ev : SseEvent)
    (st : GlobalState) (count : Nat) (h : ev.event = "fatalerror") :
    onmessage cid msg ev st = .fatal ev.data ∧
    onerror count (.fatal ev.data) st =
      .escalate (setStatus .Error
        (addStatusMessage (escalationMessage (.fatal ev.data)) st)) ∧
    escalationMessage (.fatal ev.data) ≠ "" := by
  refine ⟨?_, rfl, ?_⟩
  · unfold onmessage decodeEvent
    simp [h]
  · simp only [escalationMessage]
    rcases eq_or_ne (jsTrim ev.data) "" with hm | hm
    · rw [if_neg (by simp [hm])]
      decide
    · rw [if_pos hm]
      exact hm

/-- Witness for C3: a concrete `fatalerror` record. -/
theorem c3_witness :
    onmessage 1 "" ⟨"fatalerror", "kaboom"⟩ initialState = .fatal "kaboom" ∧
    onerror 0 (.fatal "kaboom") initialState =
      .escalate (setStatus .Error
        (addStatusMessage (escalationMessage (.fatal "kaboom")) initialState)) ∧
    escalationMessage (.fatal "kaboom") ≠ "" :=
  c3_fatalerror_terminal 1 "" ⟨"fatalerror", "kaboom"⟩ initialState 0 rfl

/-! ## Claim C4 -/

/-- Claim C4, counterexample: cancelling when the conversation consists of a
single assistant turn with empty content removes that turn — the conversation
becomes empty — yet status resolves to `Done`, not `Idle`: `abortRequest`
tests the length of the conversation captured BEFORE the removal. -/
theorem c4_counterexample :
    (abortRequest { status := .StreamingMessage
                    conversation := [{ id := 1, isHuman := false, content := "",
                                       contentHtml := none, sources := none }]
                    sources := [], sessionId := none, history := []
                    statusMessages := ["underveis"] }).conversation = [] ∧
    (abortRequest { status := .StreamingMessage
                    conversation := [{ id := 1, isHuman := false, content := "",
                                       contentHtml := none, sources := none }]
                    sources := [], sessionId := none, history := []
                    statusMessages := ["underveis"] }).status = AppStatus.Done :=
  ⟨rfl, rfl⟩

/-- Claim C4, amended: for every conversation state with unique turn ids
whose active (last) assistant turn has empty content, cancellation removes
that turn and resolves status by the PRE-removal conversation — which is
non-empty (it contains the cancelled turn), so status is always `Done` in
this case and `Idle` is unreachable; `statusMessages` is cleared and status
is never `Error`. -/
theorem c4_abort_resolution (st : GlobalState) (m : ChatMessage)
    (hlast : st.conversation.getLast? = some m)
    (_hhuman : m.isHuman = false)
    (hempty : m.content = "")
    (hnodup : (st.conversation.map (·.id)).Nodup) :
    (abortRequest st).conversation = st.conversation.dropLast ∧
    (abortRequest st).status = .Done ∧
    (abortRequest st).statusMessages = [] ∧
    (abortRequest st).status ≠ .Error := by
  have hrm := removeFirst_getLast st.conversation m hlast hnodup
  have hne : st.conversation.length ≠ 0 := by
    intro h0
    rw [List.length_eq_zero] at h0
    rw [h0] at hlast
    simp at hlast
  refine ⟨?_, ?_, ?_, ?_⟩ <;>
    · unfold abortRequest
      simp only []
      rw [hlast]
      simp [hempty, hne, removeMessage, hrm, resetStatusMessages, setStatus]

/-- Witness for C4: cancelling a two-turn conversation (human question, empty
assistant turn). -/
theorem c4_witness :
    (abortRequest { status := .StreamingMessage
                    conversation := [{ id := 1, isHuman := true, content := "q",
                                       contentHtml := none, sources := none },
                                     { id := 2, isHuman := false, content := "",
                                       contentHtml := none, sources := none }]
                    sources := [], sessionId := none, history := []
                    statusMessages := ["underveis"] }).conversation =
      [{ id := 1, isHuman := true, content := "q",
         contentHtml := none, sources := none },
       { id := 2, isHuman := false, content := "",
         contentHtml := none, sources := none }].dropLast ∧
    (abortRequest { status := .StreamingMessage
                    conversation := [{ id := 1, isHuman := true, content := "q",
                                       contentHtml := none, sources := none },
                                     { id := 2, isHuman := false, content := "",
                                       contentHtml := none, sources := none }]
                    sources := [], sessionId := none, history := []
                    statusMessages := ["underveis"] }).status = .Done ∧
    (abortRequest { status := .StreamingMessage
                    conversation := [{ id := 1, isHuman := true, content := "q",
                                       contentHtml := none, sources := none },
                                     { id := 2, isHuman := false, content := "",
                                       contentHtml := none, sources := none }]
                    sources := [], sessionId := none, history := []
                    statusMessages := ["underveis"] }).statusMessages = [] ∧
    (abortRequest { status := .StreamingMessage
                    conversation := [{ id := 1, isHuman := true, content := "q",
                                       contentHtml := none, sources := none },
                                     { id := 2, isHuman := false, content := "",
                                       contentHtml := none, sources := none }]
                    sources := [], sessionId := none, history := []
                    statusMessages := ["underveis"] }).status ≠ .Error :=
  c4_abort_resolution _ _ rfl rfl rfl (by decide)

/-! ## Claim C6 -/

/-- Claim C6: `addSource` merges by name with verbatim snippet
deduplication: adding snippets `"A"` then `"B"` for one name yields a single
Source with summary `["A", "B"]`; adding `"A"` again leaves the state
unchanged; and for a name matching no existing Source it appends a new Source
whose summary is the one-element list of the snippet, with `expanded`
false. -/
theorem c6_addSource_merge (st : GlobalState) (inc : IncomingSource)
    (hnew : st.sources.find? (fun s => jsEq s.name inc.name) = none) :
    (addSource ⟨.str "kilde", none, none, .str "B", none, none⟩
        (addSource ⟨.str "kilde", none, none, .str "A", none, none⟩
          initialState)).sources =
      [{ name := .str "kilde", url := none, source_path := none,
         summary := [.str "A", .str "B"], icon := none, updated_at := none,
         expanded := false }] ∧
    addSource ⟨.str "kilde", none, none, .str "A", none, none⟩
        (addSource ⟨.str "kilde", none, none, .str "B", none, none⟩
          (addSource ⟨.str "kilde", none, none, .str "A", none, none⟩
            initialState)) =
      addSource ⟨.str "kilde", none, none, .str "B", none, none⟩
        (addSource ⟨.str "kilde", none, none, .str "A", none, none⟩
          initialState) ∧
    addSource inc st =
      { st with sources := st.sources ++
          [{ name := inc.name, url := inc.url, source_path := inc.source_path,
             summary := [inc.summary], icon := inc.icon,
             updated_at := inc.updated_at, expanded := false }] } := by
  refine ⟨rfl, rfl, ?_⟩
  unfold addSource
  rw [hnew]
  rfl

/-- Witness for C6: adding a snippet under a name absent from the empty
citation map. -/
theorem c6_witness :
    (addSource ⟨.str "kilde", none, none, .str "B", none, none⟩
        (addSource ⟨.str "kilde", none, none, .str "A", none, none⟩
          initialState)).sources =
      [{ name := .str "kilde", url := none, source_path := none,
         summary := [.str "A", .str "B"], icon := none, updated_at := none,
         expanded := false }] ∧
    addSource ⟨.str "kilde", none, none, .str "A", none, none⟩
        (addSource ⟨.str "kilde", none, none, .str "B", none, none⟩
          (addSource ⟨.str "kilde", none, none, .str "A", none, none⟩
            initialState)) =
      addSource ⟨.str "kilde", none, none, .str "B", none, none⟩
        (addSource ⟨.str "kilde", none, none, .str "A", none, none⟩
          initialState) ∧
    addSource ⟨.str "ny", none, none, .str "S", none, none⟩ initialState =
      { initialState with sources := initialState.sources ++
          [{ name := .str "ny", url := none, source_path := none,
             summary := [.str "S"], icon := none,
             updated_at := none, expanded := false }] } :=
  c6_addSource_merge initialState ⟨.str "ny", none, none, .str "S", none, none⟩ rfl

/-! ## Claim C10 -/

/-- Claim C10: a `source` event whose decoded payload lacks the `name` field
or lacks the `page_content` field is ignored entirely: `onmessage` returns
the state (and the accumulated message) unchanged. -/
theorem c10_source_missing_field_ignored (cid : Nat) (msg : String)
    (ev : SseEvent) (st : GlobalState) (pd : JValue)
    (hdec : decodeEvent ev = .inr ("source", pd))
    (hmiss : jget pd "name" = none ∨ jget pd "page_content" = none) :
    onmessage cid msg ev st = .ok st msg := by
  unfold onmessage
  rw [hdec]
  have hs : handleSource pd st = st := by
    unfold handleSource
    rcases hmiss with h | h
    · cases hpc : jget pd "page_content" <;> simp [h, hpc]
    · simp [h]
  simp [hs]

/-- Witness for C10: a `source` record whose JSON payload has a `name` but no
`page_content`. -/
theorem c10_witness :
    onmessage 1 "" ⟨"source", "\x7b\"name\": \"x\"\x7d"⟩ initialState =
      .ok initialState "" :=
  c10_source_missing_field_ignored 1 "" ⟨"source", "\x7b\"name\": \"x\"\x7d"⟩
    initialState (.obj [("name", .str "x")]) rfl (Or.inr rfl)

/-! ## Claim C5 -/

theorem string_len_zero_iff (s : String) : s.length = 0 ↔ s = "" := by
  constructor
  · intro h
    apply String.ext
    rw [← List.length_eq_zero]
    exact h
  · intro h
    rw [h]
    rfl

/-- Claim C5: starting from any history satisfying the invariant (at most 20
entries, no two case-insensitively equal), recording a submitted question
yields a history of at most 20 entries with no two case-insensitively equal
entries, the trimmed question first; recording a question that is empty after
trimming leaves the history unchanged. -/
theorem c5_history_bounded_dedup (st : GlobalState) (q : String)
    (hlen : st.history.length ≤ MAX_HISTORY_ENTRIES)
    (hdedup : List.Pairwise (fun a b => localeEq a b = false) st.history) :
    (recordHistory q st).history.length ≤ MAX_HISTORY_ENTRIES ∧
    List.Pairwise (fun a b => localeEq a b = false) (recordHistory q st).history ∧
    (jsTrim q ≠ "" → (recordHistory q st).history.head? = some (jsTrim q)) ∧
    (jsTrim q = "" → (recordHistory q st).history = st.history) := by
  have hh := recordHistory_history q st
  rw [hh]
  unfold buildHistoryList normaliseQuestion
  by_cases hq : (jsTrim q).length = 0
  · have hq' : jsTrim q = "" := (string_len_zero_iff _).mp hq
    rw [if_pos hq]
    exact ⟨hlen, hdedup, fun hne => absurd hq' hne, fun _ => rfl⟩
  · have hq' : jsTrim q ≠ "" := fun he => hq ((string_len_zero_iff _).mpr he)
    rw [if_neg hq]
    refine ⟨?_, ?_, ?_, ?_⟩
    · rw [List.length_take]
      exact Nat.min_le_left _ _
    · apply List.Pairwise.sublist (List.take_sublist _ _)
      rw [List.pairwise_cons]
      constructor
      · intro b hb
        rw [List.mem_filter] at hb
        rw [localeEq_comm]
        simpa using hb.2
      · exact List.Pairwise.sublist (List.filter_sublist _) hdedup
    · intro _
      rw [show MAX_HISTORY_ENTRIES = 19 + 1 from rfl, List.take_succ_cons]
      rfl
    · intro he
      exact absurd he hq'

/-- Witness for C5: recording `"hva er x?"` over the single-entry history
`["Hva er X?"]`. -/
theorem c5_witness :
    (recordHistory "hva er x?"
        { status := .Idle, conversation := [], sources := [], sessionId := none,
          history := ["Hva er X?"], statusMessages := [] }).history.length ≤
      MAX_HISTORY_ENTRIES ∧
    List.Pairwise (fun a b => localeEq a b = false)
      (recordHistory "hva er x?"
        { status := .Idle, conversation := [], sources := [], sessionId := none,
          history := ["Hva er X?"], statusMessages := [] }).history ∧
    (jsTrim "hva er x?" ≠ "" →
      (recordHistory "hva er x?"
        { status := .Idle, conversation := [], sources := [], sessionId := none,
          history := ["Hva er X?"], statusMessages := [] }).history.head? =
        some (jsTrim "hva er x?")) ∧
    (jsTrim "hva er x?" = "" →
      (recordHistory "hva er x?"
        { status := .Idle, conversation := [], sources := [], sessionId := none,
          history := ["Hva er X?"], statusMessages := [] }).history =
        ["Hva er X?"]) :=
  c5_history_bounded_dedup
    { status := .Idle, conversation := [], sources := [], sessionId := none,
      history := ["Hva er X?"], statusMessages := [] }
    "hva er x?" (by decide) (by simp)

/-! ## Claim C9 -/

/-- Claim C9: in every conversation state reachable through the controller's
operations (appending a human turn with `id = 1 + turn count`, appending an
assistant turn the same way, and removing the last empty assistant turn on
cancellation), the turn ids are strictly increasing in array order and hence
unique. -/
theorem c9_ids_unique_increasing (c : List ChatMessage) (h : ConvReachable c) :
    List.Pairwise (· < ·) (c.map (·.id)) ∧ (c.map (·.id)).Nodup := by
  rw [convReachable_ids c h]
  exact ⟨List.pairwise_lt_range' _ _, List.nodup_range' _ _⟩

/-- Witness for C9: the conversation built by asking one question (human turn
then empty assistant turn). -/
theorem c9_witness :
    List.Pairwise (· < ·)
      (([{ id := 1, isHuman := true, content := "q", contentHtml := none,
           sources := none },
         { id := 2, isHuman := false, content := "", contentHtml := none,
           sources := none }] : List ChatMessage).map (·.id)) ∧
    (([{ id := 1, isHuman := true, content := "q", contentHtml := none,
         sources := none },
       { id := 2, isHuman := false, content := "", contentHtml := none,
         sources := none }] : List ChatMessage).map (·.id)).Nodup :=
  c9_ids_unique_increasing _
    (ConvReachable.assistant _ (ConvReachable.human [] "q" ConvReachable.nil))

end LovChat
